import Mathlib

/-
Verification of the prompt-generator core of `app/streamlit_app.py`
(artifact lifecycle manager + dynamic-opening validator).

The Python source is shallowly embedded:
  * `check_dynamic_first`  (src lines 66-86)   -> `check_dynamic_first`
  * `sample_prompt_stub`   (src lines 119-128) -> `sample_prompt_stub`
  * result normalization   (src lines 230-243) -> `normalizeResult`
  * stub batch fallback    (src lines 245-258) -> `createStub`, `generateBatchNew`
  * confirm-regenerate     (src lines 277-292) -> `confirmRegenerate`
  * Optimize & Validate    (src lines 350-365) -> `confirmOptimize`
  * session-slot state     (src lines 58, 328-333) -> `UIState`, `beginRegeneration`, `beginEdit`

Python strings are modelled as `String` / `List Char`; the nondeterministic
`uuid.uuid4()` draws are modelled as an explicit entropy source argument
(`Nat -> String`); backend responses are modelled as `Option` payloads
(`none` = the exception / malformed-response branch of the `try`).
-/

set_option maxRecDepth 100000
set_option maxHeartbeats 4000000

namespace PromptApp

/-- Model of Python `a.startswith(b)`-style check used to find substrings:
`isPrefixOfB pat l` is true iff `pat` is an initial run of `l`. -/
def isPrefixOfB : List Char → List Char → Bool
  | [], _ => true
  | _ :: _, [] => false
  | a :: as, b :: bs => a == b && isPrefixOfB as bs

/-- Model of Python `pat in s` on strings: substring occurrence. -/
def containsSub (pat : List Char) : List Char → Bool
  | [] => isPrefixOfB pat []
  | c :: t => isPrefixOfB pat (c :: t) || containsSub pat t

/-- Suffix of `l` just after the first occurrence of `pat`
(the remainder that the regex capture group of
`re.search(r"\[0-4s\](.*?)(?=\[4-8s\]|\[8-12s\]|$)", lower, re.S)` starts
scanning), or `none` when `pat` does not occur (`m is None`). -/
def afterFirst (pat : List Char) : List Char → Option (List Char)
  | [] => if isPrefixOfB pat [] then some [] else none
  | c :: t =>
    if isPrefixOfB pat (c :: t) then some ((c :: t).drop pat.length)
    else afterFirst pat t

/-- The lazy capture `(.*?)(?=\[4-8s\]|\[8-12s\]|$)` after the `[0-4s]`
marker: stop at the earliest position where `[4-8s]` or `[8-12s]` starts,
or at the end of the text (Python `$` also matches just before a final
trailing newline). -/
def segmentUpTo : List Char → List Char
  | [] => []
  | c :: t =>
    if isPrefixOfB "[4-8s]".data (c :: t) || isPrefixOfB "[8-12s]".data (c :: t) then []
    else if c = '\n' && t.isEmpty then []
    else c :: segmentUpTo t

/-- Model of Python `str.splitlines()` (line boundaries `\n`, `\r\n`, `\r`;
no trailing empty line for a final newline; empty string gives `[]`).
The exotic Unicode boundary characters are not used by any text in scope. -/
def splitlines : List Char → List (List Char)
  | [] => []
  | '\r' :: '\n' :: rest => [] :: splitlines rest
  | '\n' :: rest => [] :: splitlines rest
  | '\r' :: rest => [] :: splitlines rest
  | c :: rest =>
    match splitlines rest with
    | [] => [[c]]
    | l :: ls => (c :: l) :: ls

/-- The opening segment the validator scans: either the captured text after
a `[0-4s]` marker (a string), or — Python slip kept faithfully — the raw
*list* of the first five lines (`lower.splitlines()[:5]`). -/
inductive Segment where
  | text : List Char → Segment
  | lines : List (List Char) → Segment

/-- Python `token in first_segment`: substring search when the segment is a
string, element (whole-line equality) membership when it is a list. -/
def segContains (tok : List Char) : Segment → Bool
  | .text s => containsSub tok s
  | .lines ls => ls.contains tok

/-- `BANNED_TOKENS` (src line 64). -/
def BANNED_TOKENS : List String :=
  ["is placed", "stands", "sits", "is shown", "is displayed", "is on"]

/-- `dynamic_keywords` (src line 83). -/
def dynamic_keywords : List String :=
  ["fast dolly", "rapid orbit", "handheld shake", "whip pan", "water", "explod",
   "grab", "drops", "transformation", "wind blowing", "smoke swirling", "light streaks"]

/-- `check_dynamic_first` (src lines 66-86), returning `(ok, reasons)`.
`if not final_prompt_text` is the Python falsiness test, true exactly for
the empty string. `lower` models `str.lower()` (ASCII case folding; the
texts in scope contain no cased non-ASCII letters). -/
def check_dynamic_first (final_prompt_text : String) : Bool × List String :=
  if final_prompt_text = "" then (false, ["Prompt 为空"])
  else
    let lower := final_prompt_text.data.map Char.toLower
    let first_segment : Segment :=
      match afterFirst "[0-4s]".data lower with
      | some rest => .text (segmentUpTo rest)
      | none => .lines ((splitlines lower).take 5)
    let reasons := BANNED_TOKENS.filterMap fun tok =>
      if segContains tok.data first_segment then
        some ("包含禁止静态词汇: \x27" ++ tok ++ "\x27")
      else none
    let reasons :=
      if dynamic_keywords.any (fun k => segContains k.data first_segment) then reasons
      else reasons ++ ["开头缺少强动作/强物理/强运镜等动态关键词"]
    (reasons.isEmpty, reasons)

/-- `sample_prompt_stub` (src lines 119-128). The `product_name` parameter
exists in the source but is never used in the template. -/
def sample_prompt_stub (product_name : String) : String :=
  "Strictly animate the provided product image. Vertical 9:16, 12 seconds.\n" ++
  "[Dynamic Start Command: High motion velocity, no static frames].\n\n" ++
  "[0-4s] [IMMEDIATE ACTION]: Fast Dolly Zoom in towards the product; water explodes and splashes around the product instantly, camera performs a rapid orbit while handheld shake adds micro-jerk.\n" ++
  "[4-8s] [Transition]: Rapid whip pan to a close-up; product rotates revealing texture and selling point.\n" ++
  "[8-12s] [Conclusion]: Product glows and shoots light streaks upward; final hero pull-away shot with cinematic rack focus.\n\n" ++
  "Style tags: High motion, cinematic, 4k, no static shots.\n" ++
  "Maintain visual fidelity to the provided product image."

/-- One entry of `st.session_state["results"]` (an Artifact): keys
`id, final_prompt, audit, tradeoff, av_plan, tags, versions`.
The `audit` dict is modelled as an association list. -/
structure Entry where
  id : String
  final_prompt : String
  audit : List (String × String)
  tradeoff : String
  av_plan : String
  tags : List String
  versions : List String
deriving DecidableEq

/-- One raw payload from the `POST /generate` response `results` array;
`none` fields model absent JSON keys (handled by `dict.get` defaults). -/
structure RawResult where
  id : Option String
  final_prompt : Option String
  audit : Option (List (String × String))
  tradeoff : Option String
  av_plan : Option String
  tags : Option (List String)

/-- Normalization of one generate result (src lines 231-243).
`r.get("id") or str(uuid.uuid4())` replaces both an absent and a falsy
(empty) id with a fresh uuid `freshId`; textual fields default to `""`,
`audit` to the empty dict, `tags` to `[]`; `versions` is seeded with the
prompt as its sole entry. -/
def normalizeResult (freshId : String) (r : RawResult) : Entry :=
  { id := match r.id with
          | some s => if s = "" then freshId else s
          | none => freshId
    final_prompt := r.final_prompt.getD ""
    audit := r.audit.getD []
    tradeoff := r.tradeoff.getD ""
    av_plan := r.av_plan.getD ""
    tags := r.tags.getD []
    versions := [r.final_prompt.getD ""] }

/-- One stub entry of the offline fallback (src lines 248-257).
`uuidHex6` models the `uuid.uuid4().hex[:6]` draw; `has_image` models
`if image_file`. -/
def stubEntry (uuidHex6 : String) (product_name : String) (has_image : Bool) : Entry :=
  { id := "stub-" ++ uuidHex6
    final_prompt := sample_prompt_stub product_name
    audit := [("image", if has_image then "OK" else "NO_IMAGE")]
    tradeoff := "示例 Trade-off（后端不可用）"
    av_plan := "示例 AV Plan"
    tags := ["demo", "sample"]
    versions := [sample_prompt_stub product_name] }

/-- The fallback loop `for i in range(output_count)` (src lines 248-258):
the ArtifactStore createStub operation. `uuidHex` is the entropy source
giving the hex draw of iteration `i`. -/
def createStub (product_name : String) (output_count : Nat) (has_image : Bool)
    (uuidHex : Nat → String) : List Entry :=
  (List.range output_count).map fun i => stubEntry (uuidHex i) product_name has_image

/-- The batch of entries the generate handler appends to
`st.session_state["results"]` (src lines 227-258): the normalized backend
results when the call succeeded (`resp = some results`), otherwise the
`output_count` stub entries. Total — the handler catches every backend
error inside `call_backend_generate` and never raises. -/
def generateBatchNew (resp : Option (List RawResult)) (freshIds uuidHex : Nat → String)
    (product_name : String) (output_count : Nat) (has_image : Bool) : List Entry :=
  match resp with
  | some results => results.enum.map fun ir => normalizeResult (freshIds ir.1) ir.2
  | none => createStub product_name output_count has_image uuidHex

/-- The confirm-regenerate handler body on one target entry
(src lines 277-292). `gw = some payload` is the branch
`resp and "result" in resp` with `payload` the optional
`final_prompt` field of `resp["result"]`; `gw = none` is the failure
branch, which appends the marker `"\n\n# Regenerated (示例变体: " + preset + ")"`
to the existing prompt. On both branches the handler appends the *new*
prompt to `versions` and then overwrites `final_prompt` with it. -/
def confirmRegenerate (gw : Option (Option String)) (preset : String) (target : Entry) : Entry :=
  match gw with
  | some payload =>
    let newp := payload.getD ""
    { target with versions := target.versions ++ [newp], final_prompt := newp }
  | none =>
    let new_prompt := target.final_prompt ++ "\n\n# Regenerated (示例变体: " ++ preset ++ ")"
    { target with versions := target.versions ++ [new_prompt], final_prompt := new_prompt }

/-- The Optimize & Validate handler body on one target entry
(src lines 350-365). `gw = some payload` is the successful
`/validate_and_optimize` call with `payload` the optional
`optimized_prompt` field (defaulting to the draft `txt`); `gw = none` is
the exception branch, which keeps the raw draft. On both branches the
handler appends the *old* `final_prompt` to `versions` and then
overwrites `final_prompt` with the new text. -/
def confirmOptimize (gw : Option (Option String)) (txt : String) (target : Entry) : Entry :=
  match gw with
  | some payload =>
    { target with versions := target.versions ++ [target.final_prompt],
                  final_prompt := payload.getD txt }
  | none =>
    { target with versions := target.versions ++ [target.final_prompt],
                  final_prompt := txt }

/-- The two mutation paths of an artifact: a confirmed regeneration or a
confirmed edit/optimize, each with its gateway outcome. -/
inductive Mutation where
  | regen : Option (Option String) → String → Mutation
  | editOpt : Option (Option String) → String → Mutation

/-- Dispatch of a mutation to its handler. -/
def applyMutation (e : Entry) : Mutation → Entry
  | .regen gw preset => confirmRegenerate gw preset e
  | .editOpt gw txt => confirmOptimize gw txt e

/-- The session-slot part of `st.session_state` (src lines 58-59 and the
`edit_idx` key): the list of results plus the `regenerate_target` and
`edit_idx` slots. -/
structure UIState where
  results : List Entry
  regenerate_target : Option Nat
  edit_idx : Option Nat

/-- The Regenerate button handler (src lines 328-330): unconditionally
stores the clicked index in the `regenerate_target` slot. -/
def beginRegeneration (s : UIState) (i : Nat) : UIState :=
  { s with regenerate_target := some i }

/-- The Edit & Optimize button handler (src lines 331-333): unconditionally
stores the clicked index in the `edit_idx` slot. -/
def beginEdit (s : UIState) (i : Nat) : UIState :=
  { s with edit_idx := some i }

/-- The initial session state (src lines 54-59). -/
def uiState0 : UIState :=
  { results := [], regenerate_target := none, edit_idx := none }

/-- A concrete pre-mutation artifact used in counterexamples. -/
def entry0 : Entry :=
  { id := "r1", final_prompt := "OLD", audit := [], tradeoff := "",
    av_plan := "", tags := [], versions := ["OLD"] }

/-- A concrete uuid entropy source (every draw gives hex `aaaaaa`). -/
def uuidA : Nat → String := fun _ => "aaaaaa"

/-- A second concrete uuid entropy source (every draw gives hex `bbbbbb`). -/
def uuidB : Nat → String := fun _ => "bbbbbb"

/-- The id-free content of a stub entry (prompt, metadata, history). -/
def stubContent (e : Entry) :
    String × List (String × String) × String × String × List String × List String :=
  (e.final_prompt, e.audit, e.tradeoff, e.av_plan, e.tags, e.versions)

/-! Helper lemmas shared by the claim theorems. -/

/-- Every mutation path appends exactly one element to `versions`. -/
theorem applyMutation_appends_one (e : Entry) (m : Mutation) :
    ∃ x, (applyMutation e m).versions = e.versions ++ [x] := by
  cases m with
  | regen gw preset =>
    cases gw with
    | some payload => exact ⟨payload.getD "", rfl⟩
    | none => exact ⟨_, rfl⟩
  | editOpt gw txt =>
    cases gw with
    | some payload => exact ⟨e.final_prompt, rfl⟩
    | none => exact ⟨e.final_prompt, rfl⟩

/-- Across any sequence of mutations the starting `versions` survives as an
initial run of the final `versions` (nothing is truncated or reordered). -/
theorem foldl_applyMutation_extends (ms : List Mutation) (e : Entry) :
    ∃ tail, (ms.foldl applyMutation e).versions = e.versions ++ tail := by
  induction ms generalizing e with
  | nil => exact ⟨[], (List.append_nil _).symm⟩
  | cons m ms ih =>
    obtain ⟨x, hx⟩ := applyMutation_appends_one e m
    obtain ⟨tail, htail⟩ := ih (applyMutation e m)
    exact ⟨x :: tail, by simp [List.foldl_cons, htail, hx]⟩

/-! Claim theorems. -/

/-- Claim C1, counterexample: the confirm-regenerate handler violates
append-before-overwrite. On the concrete artifact `entry0` (current prompt
`"OLD"`) a successful regeneration returning `"NEW"` appends `"NEW"` — the
post-mutation value — to `history`, not the pre-mutation value `"OLD"`. -/
theorem regen_appends_post_mutation_value :
    (confirmRegenerate (some (some "NEW")) "increase_motion" entry0).versions
      = ["OLD", "NEW"] ∧
    entry0.final_prompt = "OLD" ∧ ("NEW" : String) ≠ "OLD" := by
  refine ⟨rfl, rfl, by decide⟩

/-- Claim C1, amended: the edit/optimize path appends the pre-mutation
`final_prompt` and then overwrites it (append-before-overwrite), while the
regeneration path — success or failure — appends the *new* prompt, so after
a regeneration the last history element equals the post-mutation
`final_prompt` rather than the pre-mutation one. -/
theorem mutation_history_append_policy (gwR gwE : Option (Option String))
    (preset txt : String) (e : Entry) :
    (confirmOptimize gwE txt e).versions = e.versions ++ [e.final_prompt] ∧
    (confirmRegenerate gwR preset e).versions
      = e.versions ++ [(confirmRegenerate gwR preset e).final_prompt] := by
  constructor
  · cases gwE <;> rfl
  · cases gwR <;> rfl

/-- Claim C2, counterexample: a whitespace-only (but non-empty) prompt is
not caught by the emptiness test `if not final_prompt_text` — on `" "` the
validator runs the fallback checks and reports the missing-dynamic-keyword
reason, not the empty-prompt reason (`"Prompt 为空"`, which the spec renders
in English as "prompt is empty"). -/
theorem whitespace_prompt_not_empty_reason :
    check_dynamic_first " " ≠ (false, ["Prompt 为空"]) := by decide

/-- Claim C2, amended: exactly the empty string is special-cased: `""` gives
`(false, ["Prompt 为空"])` with that single reason and no further checks,
while whitespace-only non-empty inputs such as `" "` and `"\t\n "` fall
through to the five-line fallback and report only the
missing-dynamic-keyword reason. -/
theorem empty_prompt_single_reason :
    check_dynamic_first "" = (false, ["Prompt 为空"]) ∧
    check_dynamic_first " " = (false, ["开头缺少强动作/强物理/强运镜等动态关键词"]) ∧
    check_dynamic_first "\t\n " = (false, ["开头缺少强动作/强物理/强运镜等动态关键词"]) := by
  refine ⟨by decide, by decide, by decide⟩

/-- Claim C3: in the no-marker fallback the source binds `first_segment` to
the *list* `lower.splitlines()[:5]`, so `token in first_segment` tests each
banned token and dynamic keyword for equality with a whole line instead of
for substring occurrence. On `"The product stands on the desk"` the banned
phrase `"stands"` occurs as a substring of the segment yet no banned-phrase
reason is produced, and on
`"Fast dolly zoom in, water explodes around the product."` dynamic keywords
occur as substrings yet the missing-keyword reason is still produced. -/
theorem fallback_segment_line_membership_bug :
    check_dynamic_first "The product stands on the desk"
      = (false, ["开头缺少强动作/强物理/强运镜等动态关键词"]) ∧
    containsSub "stands".data
      ("The product stands on the desk".data.map Char.toLower) = true ∧
    check_dynamic_first "Fast dolly zoom in, water explodes around the product."
      = (false, ["开头缺少强动作/强物理/强运镜等动态关键词"]) ∧
    containsSub "fast dolly".data
      ("Fast dolly zoom in, water explodes around the product.".data.map Char.toLower)
      = true := by
  refine ⟨by decide, by decide, by decide, by decide⟩

/-- Claim C4: when the gateway generate call fails (`resp = none`), the
batch committed by the generate handler has exactly `output_count` entries,
each with a non-empty `final_prompt` seeded as the sole element of its
one-element history. The handler is a total function of the modelled
inputs: it never raises. -/
theorem generateBatch_failure_count_nonempty (freshIds uuidHex : Nat → String)
    (p : String) (c : Nat) (hi : Bool) :
    (generateBatchNew none freshIds uuidHex p c hi).length = c ∧
    ∀ e ∈ generateBatchNew none freshIds uuidHex p c hi,
      e.final_prompt ≠ "" ∧ e.versions = [e.final_prompt] := by
  constructor
  · simp [generateBatchNew, createStub]
  · intro e he
    simp only [generateBatchNew, createStub, List.mem_map, List.mem_range] at he
    obtain ⟨i, _, hei⟩ := he
    subst hei
    refine ⟨?_, rfl⟩
    show sample_prompt_stub p ≠ ""
    have h : sample_prompt_stub p = sample_prompt_stub "Product" := rfl
    rw [h]; decide

/-- Claim C5: a confirmed regeneration whose gateway call fails still
mutates the target: the new `final_prompt` is the old one with the visible
fallback marker `"\n\n# Regenerated (示例变体: <preset>)"` appended (the
spec renders the marker in English as "(regenerated variant: <presetKind>)"),
`history` grows by exactly one entry (the new prompt), and the prompt
really changes. -/
theorem confirm_regeneration_failure_mutates (preset : String) (e : Entry) :
    (confirmRegenerate none preset e).final_prompt
      = e.final_prompt ++ "\n\n# Regenerated (示例变体: " ++ preset ++ ")" ∧
    (confirmRegenerate none preset e).versions
      = e.versions ++ [(confirmRegenerate none preset e).final_prompt] ∧
    (confirmRegenerate none preset e).versions.length = e.versions.length + 1 ∧
    (confirmRegenerate none preset e).final_prompt ≠ e.final_prompt := by
  refine ⟨rfl, rfl, by simp [confirmRegenerate], ?_⟩
  intro h
  have h2 : (e.final_prompt ++ "\n\n# Regenerated (示例变体: " ++ preset ++ ")").length
      = e.final_prompt.length := congrArg String.length h
  rw [String.length_append, String.length_append, String.length_append] at h2
  have h3 : (")" : String).length = 1 := rfl
  omega

/-- Claim C6, counterexample: with a regeneration session already active,
a second Regenerate click does not fail with a conflict — it opens a new
session bound to the other artifact — and an Edit & Optimize click opens an
edit session while the regeneration session is still active, so two
artifacts are simultaneously in a non-Idle state. -/
theorem second_begin_regeneration_succeeds :
    (beginRegeneration (beginRegeneration uiState0 0) 1).regenerate_target = some 1 ∧
    (beginEdit (beginRegeneration uiState0 0) 1).regenerate_target = some 0 ∧
    (beginEdit (beginRegeneration uiState0 0) 1).edit_idx = some 1 :=
  ⟨rfl, rfl, rfl⟩

/-- Claim C6, amended: `beginRegeneration` never fails: from any state it
silently rebinds the single `regenerate_target` slot to the new index and
leaves `edit_idx` untouched; symmetrically `beginEdit` rebinds `edit_idx`
and leaves `regenerate_target` untouched, so a regeneration session and an
edit session can be active at the same time and no conflict is ever
reported. -/
theorem begin_session_always_rebinds (s : UIState) (i : Nat) :
    (beginRegeneration s i).regenerate_target = some i ∧
    (beginRegeneration s i).edit_idx = s.edit_idx ∧
    (beginEdit s i).edit_idx = some i ∧
    (beginEdit s i).regenerate_target = s.regenerate_target :=
  ⟨rfl, rfl, rfl, rfl⟩

/-- Claim C7: every artifact is created (normalized backend result or stub)
with `history` seeded as the one-element list holding its creation prompt;
every mutation appends exactly one element; across any mutation sequence
the old `history` persists as an initial run of the new one (no truncation
or reordering), `history.length` is non-decreasing along any extension of
the sequence, and `history` stays non-empty forever. -/
theorem history_seeded_monotone (fid u p : String) (hi : Bool) (r : RawResult)
    (e : Entry) (ms ms2 : List Mutation) :
    (normalizeResult fid r).versions = [(normalizeResult fid r).final_prompt] ∧
    (stubEntry u p hi).versions = [(stubEntry u p hi).final_prompt] ∧
    (∀ m : Mutation, ∃ x, (applyMutation e m).versions = e.versions ++ [x]) ∧
    (∃ tail, (ms.foldl applyMutation e).versions = e.versions ++ tail) ∧
    (ms.foldl applyMutation e).versions.length
      ≤ ((ms ++ ms2).foldl applyMutation e).versions.length ∧
    (ms.foldl applyMutation (normalizeResult fid r)).versions ≠ [] ∧
    (ms.foldl applyMutation (stubEntry u p hi)).versions ≠ [] := by
  refine ⟨rfl, rfl, applyMutation_appends_one e, foldl_applyMutation_extends ms e, ?_, ?_, ?_⟩
  · rw [List.foldl_append]
    obtain ⟨tail, htail⟩ := foldl_applyMutation_extends ms2 (ms.foldl applyMutation e)
    rw [htail, List.length_append]
    omega
  · obtain ⟨tail, htail⟩ := foldl_applyMutation_extends ms (normalizeResult fid r)
    rw [htail]
    simp [normalizeResult]
  · obtain ⟨tail, htail⟩ := foldl_applyMutation_extends ms (stubEntry u p hi)
    rw [htail]
    simp [stubEntry]

/-- Claim C8, counterexample: createStub is not deterministic given equal
`productName` and `count`: each stub id embeds a fresh `uuid.uuid4().hex[:6]`
draw, so two calls whose draws differ (entropy sources `uuidA` vs `uuidB`)
produce different id lists, hence unequal artifact lists. -/
theorem createStub_ids_differ :
    (createStub "Product" 1 true uuidA).map Entry.id
      ≠ (createStub "Product" 1 true uuidB).map Entry.id := by decide

/-- Claim C8, amended: given equal `productName`, `count` and image
presence, two createStub calls agree on everything except the ids: the
prompt content, metadata and seeded history of the produced artifacts are
equal lists regardless of the uuid draws, while the ids embed the fresh
draws and can differ between calls. -/
theorem createStub_content_deterministic (u1 u2 : Nat → String) (p : String)
    (c : Nat) (hi : Bool) :
    (createStub p c hi u1).map stubContent = (createStub p c hi u2).map stubContent := by
  unfold createStub
  rw [List.map_map, List.map_map]
  have h : (stubContent ∘ fun i => stubEntry (u1 i) p hi)
      = (stubContent ∘ fun i => stubEntry (u2 i) p hi) := funext fun i => rfl
  rw [h]

/-- Claim C9: the stub prompt template never incorporates the product name:
for any two product names the synthesized placeholder text is identical. -/
theorem stub_prompt_ignores_product_name (p1 p2 : String) :
    sample_prompt_stub p1 = sample_prompt_stub p2 := rfl

/-- Claim C10: every offline-fallback stub prompt satisfies the
dynamic-opening validator: its `[0-4s]` segment contains dynamic keywords
(e.g. "fast dolly") and no banned static phrase, so for any product name
the check returns `(true, [])`. -/
theorem stub_prompt_passes_dynamic_check (p : String) :
    check_dynamic_first (sample_prompt_stub p) = (true, []) := by
  have h : sample_prompt_stub p = sample_prompt_stub "Product" := rfl
  rw [h]; decide

end PromptApp
